import Mathlib

/-!
Verification of the KarokiMate offline-first recording subsystem.

The definitions below are a shallow embedding of the TypeScript services:

* `DatabaseService` (src/unnamed/part_001): the local recording store.  On
  mobile, `saveRecording` / `getRecording` / `getRecordings` /
  `deleteRecording` operate on an AsyncStorage JSON list under the key
  `karaoke_recordings`, while `getUnsyncedRecordings` /
  `updateRecordingSyncStatus` operate on the SQLite `recordings` table.  The
  embedding keeps the two backing stores separate, exactly as the source does
  (`DbState.asyncStore` and `DbState.sqliteDb`; `sqliteDb = none` models the
  `this.db === null` case).  On web every operation uses the localStorage list
  `karaokemate_recordings`, modelled as a plain `List Recording`.
* `SyncService` (src/services/syncService.ts): `performSync` with its
  online/reentrancy guard and the per-item try/catch loop of
  `uploadUnsyncedRecordings`.  External effects (Firebase upload success,
  returned URLs) are supplied as explicit oracles in `SyncEnv`.
* `AudioService` (src/services/audioService.ts): the capture state machine of
  `startRecording` / `stopRecording`, and the synchronous local-commit part of
  `stopRecordingAndUpload`.
* `SongService` (src/services/songService.ts): `downloadSong` and
  `downloadFirebaseSong` with the file-system and HTTP outcomes as oracles.

Time (`Date.now`, `toISOString`) and generated identifiers are passed in as
explicit arguments; asynchronous effects are sequenced in program order, which
matches the single-threaded JavaScript execution of the source.
-/

namespace KarokiMate

/-- A locally stored recording, mirroring `Recording` in src/unnamed/part_001
(lines 17-30).  Optional TS fields are `Option`s. -/
structure Recording where
  id : String
  songId : Option String
  audioPath : String
  duration : Nat
  createdAt : String
  isSynced : Bool
  title : Option String
  artist : Option String
  isPublic : Option Bool
  tags : Option (List String)
  playCount : Option Nat
  deriving DecidableEq, Repr

/-- Mobile-side state of `DatabaseService`: the AsyncStorage list under
`karaoke_recordings` and the SQLite `recordings` table (`none` when
`this.db === null`). -/
structure DbState where
  asyncStore : List Recording
  sqliteDb : Option (List Recording)
  deriving DecidableEq, Repr

/-- `DatabaseService.saveRecording`, mobile branch (part_001 lines 254-294):
reads the AsyncStorage list, prepends (`unshift`) the new recording with
`createdAt` stamped, and writes the list back.  The SQLite table is not
touched. -/
def saveRecording (now : String) (r : Recording) (st : DbState) : DbState :=
  { st with asyncStore := { r with createdAt := now } :: st.asyncStore }

/-- `DatabaseService.getRecording`, mobile branch (part_001 lines 226-252):
finds the first recording with the given id in the AsyncStorage list. -/
def getRecording (id : String) (st : DbState) : Option Recording :=
  st.asyncStore.find? (fun r => r.id == id)

/-- Rows satisfying `WHERE isSynced = 0`. -/
def unsyncedRows (tbl : List Recording) : List Recording :=
  tbl.filter (fun r => !r.isSynced)

/-- `DatabaseService.getUnsyncedRecordings` (part_001 lines 359-363):
`SELECT * FROM recordings WHERE isSynced = 0` against the SQLite table;
returns `[]` when `this.db` is null.  It never consults the AsyncStorage
list. -/
def getUnsyncedRecordings (st : DbState) : List Recording :=
  match st.sqliteDb with
  | none => []
  | some tbl => unsyncedRows tbl

/-- Effect of `UPDATE recordings SET isSynced = ? WHERE id = ?` on the table
rows. -/
def setSyncFlag (id : String) (flag : Bool) (tbl : List Recording) : List Recording :=
  tbl.map (fun r => if r.id == id then { r with isSynced := flag } else r)

/-- `DatabaseService.updateRecordingSyncStatus`, mobile branch (part_001 lines
296-316).  `connOk` models the `SELECT 1` connection test, `updOk` the
`runAsync` UPDATE; on either failure the error is swallowed, `this.db` is set
to null, and the method returns normally.  The returned `Except` is the
outcome visible to the caller: it is always `ok`. -/
def updateRecordingSyncStatus (connOk updOk : Bool) (id : String) (flag : Bool)
    (st : DbState) : Except String Unit × DbState :=
  match st.sqliteDb with
  | none => (Except.ok (), st)
  | some tbl =>
    if !connOk then (Except.ok (), { st with sqliteDb := none })
    else if !updOk then (Except.ok (), { st with sqliteDb := none })
    else (Except.ok (), { st with sqliteDb := some (setSyncFlag id flag tbl) })

/-- `DatabaseService.saveWebRecording` (part_001 lines 422-438): prepends the
stamped recording to the localStorage list. -/
def saveWebRecording (now : String) (r : Recording) (store : List Recording) :
    List Recording :=
  { r with createdAt := now } :: store

/-- `DatabaseService.getWebRecording` (part_001 lines 385-394): first entry
with the given id. -/
def getWebRecording (id : String) (store : List Recording) : Option Recording :=
  store.find? (fun r => r.id == id)

/-- `DatabaseService.updateWebRecordingSyncStatus` (part_001 lines 396-408):
maps over the list, setting `isSynced` on every entry with the given id. -/
def updateWebRecordingSyncStatus (id : String) (flag : Bool)
    (store : List Recording) : List Recording :=
  store.map (fun r => if r.id == id then { r with isSynced := flag } else r)

/-- The spec's `markSynced(id)`: `updateRecordingSyncStatus(id, true)` on the
web store. -/
def markSynced (id : String) (store : List Recording) : List Recording :=
  updateWebRecordingSyncStatus id true store

/-- `DatabaseService.deleteWebRecording` (part_001 lines 410-420). -/
def deleteWebRecording (id : String) (store : List Recording) : List Recording :=
  store.filter (fun r => r.id != id)

/-- Metadata argument of `AudioService.stopRecordingAndUpload`. -/
structure RecordingMetadata where
  songId : Option String
  songTitle : Option String
  songArtist : Option String
  duration : Option Nat
  isPublic : Option Bool
  tags : Option (List String)
  deriving DecidableEq, Repr

/-- The synchronous local-commit part of `AudioService.stopRecordingAndUpload`
(src/services/audioService.ts lines 524-578) after `stopRecording` has
produced `recordingUri`: build the local `Recording` with `isSynced: false`,
`await databaseService.saveRecording(...)`, then return the generated id.
`freshId` stands for the generated ``local_${Date.now()}_${random}`` string.
`isOnline` is the NetInfo answer; when online the method fires
`uploadToFirebaseInBackground` without awaiting it, so no state visible at
return time depends on it. -/
def stopRecordingAndUploadCommit (now freshId recordingUri : String)
    (meta : RecordingMetadata) (isOnline : Bool) (st : DbState) :
    String × DbState :=
  let localRecording : Recording :=
    { id := freshId
      songId := meta.songId
      audioPath := recordingUri
      duration := meta.duration.getD 120
      createdAt := ""
      isSynced := false
      title := some (meta.songTitle.getD "Local Recording")
      artist := some (meta.songArtist.getD "Karaoke User")
      isPublic := some (meta.isPublic.getD false)
      tags := some (meta.tags.getD ["karaoke", "local"])
      playCount := some 0 }
  let st1 := saveRecording now localRecording st
  (freshId, st1)

/-- Concrete recording used in counterexamples and failing-input
evaluations. -/
def rSample : Recording :=
  { id := "r1"
    songId := none
    audioPath := "file:///doc/recording_1.m4a"
    duration := 5000
    createdAt := ""
    isSynced := false
    title := some "Local Recording"
    artist := some "Karaoke User"
    isPublic := some false
    tags := some ["karaoke", "local"]
    playCount := some 0 }

/-- A fully working, empty mobile store: empty AsyncStorage list, open SQLite
handle with an empty `recordings` table. -/
def dbEmpty : DbState :=
  { asyncStore := [], sqliteDb := some [] }

/-- The Firestore `recordings` document built by `SyncService.uploadRecording`
(syncService.ts lines 99-129). -/
structure RemoteRecord where
  userId : String
  songId : Option String
  songTitle : String
  songArtist : String
  audioUrl : String
  duration : Nat
  isPublic : Bool
  tags : List String
  playCount : Nat
  deriving DecidableEq, Repr

/-- External behaviour the sync service depends on: the signed-in user id,
whether uploading a given recording (keyed by its id) succeeds on this pass,
and the storage URL returned for an uploaded audio path. -/
structure SyncEnv where
  userId : String
  uploadOk : String → Bool
  uploadUrl : String → String

/-- The document `SyncService.uploadRecording` writes on success. -/
def mkRemoteRecord (env : SyncEnv) (r : Recording) : RemoteRecord :=
  { userId := env.userId
    songId := r.songId
    songTitle := r.title.getD "Unknown Song"
    songArtist := r.artist.getD "Unknown Artist"
    audioUrl := env.uploadUrl r.audioPath
    duration := r.duration
    isPublic := r.isPublic.getD false
    tags := r.tags.getD ["karaoke", "synced"]
    playCount := 0 }

/-- State the reconciler acts on: the SQLite `recordings` table (the store
`getUnsyncedRecordings` and `updateRecordingSyncStatus` address), the remote
Firestore collection, and the service's `isOnline` / `isSyncing` flags. -/
structure SyncState where
  table : List Recording
  remote : List RemoteRecord
  isOnline : Bool
  isSyncing : Bool
  deriving DecidableEq, Repr

/-- The loop of `SyncService.uploadUnsyncedRecordings` (syncService.ts lines
77-97) over the fetched queue: for each recording, try `uploadRecording`
(upload the audio, then `addRecording` the Firestore document — both happen
when `env.uploadOk` grants success, neither when it throws), then mark the
recording synced via `updateRecordingSyncStatus(id, true)`.  A per-item
failure is caught inside the loop body and the loop continues with the rest of
the queue. -/
def uploadQueue (env : SyncEnv) (queue : List Recording)
    (tbl : List Recording) (remote : List RemoteRecord) :
    List Recording × List RemoteRecord :=
  match queue with
  | [] => (tbl, remote)
  | r :: rest =>
    if env.uploadOk r.id then
      uploadQueue env rest (setSyncFlag r.id true tbl) (remote ++ [mkRemoteRecord env r])
    else
      uploadQueue env rest tbl remote

/-- `SyncService.performSync` (syncService.ts lines 52-75): return immediately
unless online and not already syncing; otherwise set the `isSyncing` flag,
upload the unsynced queue, and clear the flag in the `finally` block.
`downloadNewSongs` only writes to the songs catalog, which carries no
recording or remote-record state, so it is not part of this state.  The body's
`catch` swallows any error, so the call never reports one. -/
def performSync (env : SyncEnv) (s : SyncState) : SyncState :=
  if !s.isOnline || s.isSyncing then s
  else
    let inFlight := { s with isSyncing := true }
    let out := uploadQueue env (unsyncedRows inFlight.table) inFlight.table inFlight.remote
    { inFlight with table := out.fst, remote := out.snd, isSyncing := false }

/-- Per-row effect of one `uploadUnsyncedRecordings` pass with queue `queue`:
a row is flipped to synced exactly when some queue entry shares its id and
uploads successfully.  Used to characterise `uploadQueue`. -/
def marksOf (env : SyncEnv) (queue : List Recording) (row : Recording) : Recording :=
  if queue.any (fun q => row.id == q.id && env.uploadOk q.id) then
    { row with isSynced := true }
  else row

/-- The capture states of `AudioService._recordingState`
(audioService.ts line 32). -/
inductive RecState
  | idle
  | recording
  | stopping
  | stopped
  deriving DecidableEq, Repr

/-- Capture-side state of `AudioService`: the `_recordingState` field and
whether `this.recording` is non-null. -/
structure AudioSvcState where
  recState : RecState
  hasRecording : Bool
  deriving DecidableEq, Repr

/-- `AudioService.cleanupRecording` (audioService.ts lines 309-323): no-op
unless a recording object exists and the state is not idle; otherwise stop it
(errors swallowed) and reset to idle in the `finally` block. -/
def cleanupRecording (s : AudioSvcState) : AudioSvcState :=
  if !s.hasRecording || s.recState == RecState.idle then s
  else { recState := RecState.idle, hasRecording := false }

/-- `AudioService.startRecording` (audioService.ts lines 139-203).  If already
in `recording`, return without changing anything.  Otherwise clean up any
stale recording, request permission (`permissionGranted`), prepare and start
the recorder (`prepareOk`); on success the state becomes `recording` with a
live recording object; on failure the `catch` sets the state to idle and
rethrows.  The first component is the outcome visible to the caller. -/
def startRecording (permissionGranted prepareOk : Bool) (s : AudioSvcState) :
    Except String Unit × AudioSvcState :=
  if s.recState == RecState.recording then (Except.ok (), s)
  else
    let s1 := if s.hasRecording && !(s.recState == RecState.idle) then cleanupRecording s else s
    if !permissionGranted then
      (Except.error "Recording permission not granted", { s1 with recState := RecState.idle })
    else if !prepareOk then
      (Except.error "prepare or start failed", { s1 with recState := RecState.idle })
    else
      (Except.ok (), { recState := RecState.recording, hasRecording := true })

/-- `AudioService.stopRecording` (audioService.ts lines 205-282).  Guard: a
missing recording object or a state other than `recording` throws
`No active recording` before any mutation.  Then the recorder is stopped
(`stopOk`), its URI read (`uriOk`), and the file moved (`moveOk`), copied
(`copyOk`) or kept at the original URI as fallbacks; every exit path resets
the state to idle and clears the recording object. -/
def stopRecording (stopOk uriOk moveOk copyOk : Bool)
    (permanentUri origUri : String) (s : AudioSvcState) :
    Except String String × AudioSvcState :=
  if !s.hasRecording || !(s.recState == RecState.recording) then
    (Except.error "No active recording", s)
  else if !stopOk then
    (Except.error "stop failed", { recState := RecState.idle, hasRecording := false })
  else if !uriOk then
    (Except.error "Failed to get recording URI", { recState := RecState.idle, hasRecording := false })
  else if moveOk then
    (Except.ok permanentUri, { recState := RecState.idle, hasRecording := false })
  else if copyOk then
    (Except.ok permanentUri, { recState := RecState.idle, hasRecording := false })
  else
    (Except.ok origUri, { recState := RecState.idle, hasRecording := false })

/-- A local catalog `songs` row, mirroring `Song` in part_001 (lines 4-15). -/
structure SongRow where
  id : String
  title : String
  artist : String
  duration : Nat
  audioUrl : String
  lyrics : String
  timing : String
  isDownloaded : Bool
  createdAt : String
  updatedAt : String
  deriving DecidableEq, Repr

/-- `DatabaseService.saveSong` (part_001 lines 157-165): SQL
`INSERT OR REPLACE` keyed by the primary key `id`, stamping
`createdAt`/`updatedAt` with the current time. -/
def saveSong (now : String) (song : SongRow) (catalog : List SongRow) : List SongRow :=
  if catalog.any (fun s => s.id == song.id) then
    catalog.map (fun s =>
      if s.id == song.id then { song with createdAt := now, updatedAt := now } else s)
  else
    catalog ++ [{ song with createdAt := now, updatedAt := now }]

/-- `DatabaseService.getSong` (part_001 lines 151-155). -/
def getSong (id : String) (catalog : List SongRow) : Option SongRow :=
  catalog.find? (fun s => s.id == id)

/-- Outcome of `FileSystem.downloadAsync` plus the subsequent
`FileSystem.getInfoAsync` on the written file: the HTTP status, the local uri,
and whether the resulting file exists and its size in bytes. -/
structure DownloadOutcome where
  status : Nat
  uri : String
  filePresent : Bool
  fileSize : Nat
  deriving DecidableEq, Repr

/-- `SongService.downloadSong` (songService.ts lines 171-203): look the song
up in the catalog, download its audio, and on HTTP status 200 save the song
back with the local path and `isDownloaded: true`.  The source never inspects
the written file — `dl.filePresent` and `dl.fileSize` are deliberately unused
here, exactly as in the code.  Any other status (or a thrown error) yields
`false` with the catalog untouched. -/
def downloadSong (now : String) (dl : DownloadOutcome) (songId : String)
    (catalog : List SongRow) : Bool × List SongRow :=
  match getSong songId catalog with
  | none => (false, catalog)
  | some song =>
    if dl.status == 200 then
      (true, saveSong now { song with audioUrl := dl.uri, isDownloaded := true } catalog)
    else
      (false, catalog)

/-- A Firestore catalog song, as used by `downloadFirebaseSong`. -/
structure FirebaseSong where
  id : String
  title : String
  artist : String
  duration : Nat
  audioUrl : String
  lyrics : String
  deriving DecidableEq, Repr

/-- An entry of the AsyncStorage `karaoke_downloaded_songs` list. -/
structure DownloadedSong where
  id : String
  title : String
  artist : String
  duration : Nat
  audioUrl : String
  isDownloaded : Bool
  deriving DecidableEq, Repr

/-- `SongService.saveDownloadedSong` (songService.ts lines 483-520): update in
place when an entry with the id exists, otherwise `unshift` a new entry. -/
def saveDownloadedSong (song : DownloadedSong) (store : List DownloadedSong) :
    List DownloadedSong :=
  if store.any (fun s => s.id == song.id) then
    store.map (fun s => if s.id == song.id then song else s)
  else
    song :: store

/-- `SongService.downloadFirebaseSong` (songService.ts lines 304-480).
`fbSong` is the Firestore lookup result; `urlOk` says whether the HEAD test of
the song's audio URL (or one of the fallback URLs) passed — when none does the
thrown error is caught and the method returns `false`.  On HTTP 200 the
written file is verified: a missing or zero-byte file returns `false` without
touching the downloaded-songs store; otherwise the song is saved with
`isDownloaded: true` and the method returns `true`. -/
def downloadFirebaseSong (fbSong : Option FirebaseSong) (urlOk : Bool)
    (dl : DownloadOutcome) (store : List DownloadedSong) :
    Bool × List DownloadedSong :=
  match fbSong with
  | none => (false, store)
  | some song =>
    if !urlOk then (false, store)
    else if dl.status == 200 then
      if !dl.filePresent || dl.fileSize == 0 then (false, store)
      else
        (true, saveDownloadedSong
          { id := song.id
            title := song.title
            artist := song.artist
            duration := song.duration
            audioUrl := dl.uri
            isDownloaded := true } store)
    else (false, store)

/-- Sample environment whose uploads always succeed. -/
def envAllOk : SyncEnv :=
  { userId := "user1"
    uploadOk := fun _ => true
    uploadUrl := fun p => String.append "https://storage.example/" p }

/-- Sample environment in which only the recording with id `r2` uploads. -/
def envMixed : SyncEnv :=
  { userId := "user1"
    uploadOk := fun id => id == "r2"
    uploadUrl := fun p => p }

/-- A second sample recording, distinct id. -/
def rOther : Recording :=
  { rSample with id := "r2" }

/-- An offline sync state with one pending recording. -/
def sOffline : SyncState :=
  { table := [rSample], remote := [], isOnline := false, isSyncing := false }

/-- `rSample` already marked synced. -/
def rSampleSynced : Recording :=
  { rSample with isSynced := true }

/-- Audio service at rest. -/
def audioIdle : AudioSvcState :=
  { recState := RecState.idle, hasRecording := false }

/-- Audio service with one live capture. -/
def audioActive : AudioSvcState :=
  { recState := RecState.recording, hasRecording := true }

/-- A catalog song that has not been downloaded. -/
def songRowS1 : SongRow :=
  { id := "s1"
    title := "Test Song"
    artist := "Demo Artist"
    duration := 30000
    audioUrl := "https://remote.example/s1.mp3"
    lyrics := "[]"
    timing := "[]"
    isDownloaded := false
    createdAt := "t0"
    updatedAt := "t0" }

/-- The Firestore copy of `s1`. -/
def fbS1 : FirebaseSong :=
  { id := "s1"
    title := "Test Song"
    artist := "Demo Artist"
    duration := 30000
    audioUrl := "https://remote.example/s1.mp3"
    lyrics := "[]" }

/-- A transfer that answered HTTP 200 but left no usable file: the written
file is missing and has size zero. -/
def emptyDl : DownloadOutcome :=
  { status := 200
    uri := "file:///doc/songs/s1.m4a"
    filePresent := false
    fileSize := 0 }

/-- C1: `saveRecording` writes the AsyncStorage list, but
`getUnsyncedRecordings` reads the SQLite `recordings` table, which no code
path ever inserts into.  Starting from a fully working empty store, saving the
unsynced recording `r1` makes `getRecording "r1"` succeed, yet
`getUnsyncedRecordings` still returns the empty list — the reconciler's work
queue does not reflect the completed save, contradicting the store contract
the sync service is built on. -/
theorem saveRecording_missing_from_unsynced_queue :
    getRecording "r1" (saveRecording "2024-01-01T00:00:00Z" rSample dbEmpty) ≠ none ∧
    getUnsyncedRecordings (saveRecording "2024-01-01T00:00:00Z" rSample dbEmpty) = [] := by
  decide

/-- C2: the commit path of `stopRecordingAndUpload` persists the recording
with `isSynced = false` before returning its id, in every network state: after
the call, `getRecording` on the returned id yields a recording with
`isSynced = false` and the commit id, and the result does not depend on
`isOnline`. -/
theorem commitRecording_durable (now freshId uri : String)
    (meta : RecordingMetadata) (isOnline : Bool) (st : DbState) :
    (stopRecordingAndUploadCommit now freshId uri meta isOnline st).fst = freshId ∧
    (∃ r, getRecording freshId
        (stopRecordingAndUploadCommit now freshId uri meta isOnline st).snd = some r ∧
        r.isSynced = false ∧ r.id = freshId) ∧
    stopRecordingAndUploadCommit now freshId uri meta isOnline st
      = stopRecordingAndUploadCommit now freshId uri meta true st := by
  refine ⟨rfl, ?_, rfl⟩
  have h : getRecording freshId
      (stopRecordingAndUploadCommit now freshId uri meta isOnline st).snd
      = some ({ id := freshId
                songId := meta.songId
                audioPath := uri
                duration := meta.duration.getD 120
                createdAt := now
                isSynced := false
                title := some (meta.songTitle.getD "Local Recording")
                artist := some (meta.songArtist.getD "Karaoke User")
                isPublic := some (meta.isPublic.getD false)
                tags := some (meta.tags.getD ["karaoke", "local"])
                playCount := some 0 } : Recording) := by
    simp [getRecording, stopRecordingAndUploadCommit, saveRecording, List.find?]
  exact ⟨_, h, rfl, rfl⟩

/-- C4 counterexample: `saveRecording` is not an upsert.  Saving `r1` twice
into an empty store leaves two entries with id `r1`, and the resulting store
differs from the store after a single save. -/
theorem saveRecording_twice_not_once :
    saveRecording "t" rSample (saveRecording "t" rSample dbEmpty)
      ≠ saveRecording "t" rSample dbEmpty ∧
    (saveRecording "t" rSample (saveRecording "t" rSample dbEmpty)).asyncStore.countP
        (fun r => r.id == "r1") = 2 := by
  decide

/-- C4 amended: `saveRecording` (mobile) and `saveWebRecording` (web) always
prepend a fresh entry and never replace an existing one: each save grows the
store by exactly one entry, and saving the same recording twice leaves two
entries carrying its id, so the store after two saves is observably different
from the store after one. -/
theorem saveRecording_always_prepends (now now' : String) (r : Recording)
    (st : DbState) (ws : List Recording) :
    (saveRecording now r st).asyncStore.length = st.asyncStore.length + 1 ∧
    (saveRecording now' r (saveRecording now r st)).asyncStore.countP
        (fun x => x.id == r.id)
      = st.asyncStore.countP (fun x => x.id == r.id) + 2 ∧
    (saveWebRecording now' r (saveWebRecording now r ws)).countP
        (fun x => x.id == r.id)
      = ws.countP (fun x => x.id == r.id) + 2 := by
  refine ⟨rfl, ?_, ?_⟩
  · simp [saveRecording, List.countP_cons]
  · simp [saveWebRecording, List.countP_cons]

theorem marksOf_cons_ok (env : SyncEnv) (q : Recording) (rest : List Recording)
    (hq : env.uploadOk q.id = true) (row : Recording) :
    marksOf env rest (if row.id == q.id then { row with isSynced := true } else row)
      = marksOf env (q :: rest) row := by
  by_cases hid : row.id = q.id
  · simp [marksOf, hid, hq, List.any_cons]
  · simp [marksOf, hid, List.any_cons]

theorem uploadQueue_fst_eq_map (env : SyncEnv) (queue tbl : List Recording)
    (remote : List RemoteRecord) :
    (uploadQueue env queue tbl remote).fst = tbl.map (marksOf env queue) := by
  induction queue generalizing tbl remote with
  | nil =>
    simp only [uploadQueue]
    induction tbl with
    | nil => rfl
    | cons a l ihl =>
      rw [List.map_cons, ← ihl]
      simp [marksOf]
  | cons q rest ih =>
    by_cases hq : env.uploadOk q.id = true
    · rw [uploadQueue, if_pos hq, ih, setSyncFlag, List.map_map]
      exact congrArg (fun g => List.map g tbl)
        (funext fun row => marksOf_cons_ok env q rest hq row)
    · have hq' : env.uploadOk q.id = false := by
        cases h : env.uploadOk q.id
        · rfl
        · exact absurd h hq
      rw [uploadQueue, if_neg (by simp [hq']), ih]
      refine congrArg (fun g => List.map g tbl) (funext fun row => ?_)
      simp [marksOf, List.any_cons, hq']

theorem uploadQueue_snd_eq (env : SyncEnv) (queue tbl : List Recording)
    (remote : List RemoteRecord) :
    (uploadQueue env queue tbl remote).snd
      = remote ++ (queue.filter (fun r => env.uploadOk r.id)).map (mkRemoteRecord env) := by
  induction queue generalizing tbl remote with
  | nil => simp [uploadQueue]
  | cons q rest ih =>
    by_cases hq : env.uploadOk q.id = true
    · rw [uploadQueue, if_pos hq, ih]
      simp [List.filter_cons, hq]
    · have hq' : env.uploadOk q.id = false := by
        cases h : env.uploadOk q.id
        · rfl
        · exact absurd h hq
      rw [uploadQueue, if_neg (by simp [hq']), ih]
      simp [List.filter_cons, hq']

theorem uploadQueue_all_fail (env : SyncEnv) (queue tbl : List Recording)
    (remote : List RemoteRecord) (h : ∀ r ∈ queue, env.uploadOk r.id = false) :
    uploadQueue env queue tbl remote = (tbl, remote) := by
  induction queue with
  | nil => rfl
  | cons q rest ih =>
    have hq := h q (List.mem_cons_self q rest)
    rw [uploadQueue, if_neg (by simp [hq])]
    exact ih fun r hr => h r (List.mem_cons_of_mem q hr)

theorem unsynced_after_pass (env : SyncEnv) (tbl : List Recording)
    (remote : List RemoteRecord) :
    ∀ r ∈ unsyncedRows (uploadQueue env (unsyncedRows tbl) tbl remote).fst,
      env.uploadOk r.id = false := by
  intro r hr
  rw [uploadQueue_fst_eq_map, unsyncedRows, List.mem_filter] at hr
  obtain ⟨hmem, hneg⟩ := hr
  have huns : r.isSynced = false := by
    cases h : r.isSynced
    · rfl
    · rw [h] at hneg
      exact absurd hneg (by simp)
  obtain ⟨row, hrow, hmap⟩ := List.mem_map.mp hmem
  by_cases hok : env.uploadOk r.id = true
  · exfalso
    rw [marksOf] at hmap
    by_cases ha : (unsyncedRows tbl).any
        (fun q => row.id == q.id && env.uploadOk q.id) = true
    · rw [if_pos ha] at hmap
      rw [← hmap] at huns
      simp at huns
    · rw [if_neg ha] at hmap
      subst hmap
      refine ha (List.any_eq_true.mpr ⟨row, ?_, ?_⟩)
      · rw [unsyncedRows, List.mem_filter]
        exact ⟨hrow, by simp [huns]⟩
      · simp [hok]
  · cases h : env.uploadOk r.id
    · rfl
    · exact absurd h hok

theorem performSync_run (env : SyncEnv) (s : SyncState)
    (hOn : s.isOnline = true) (hSy : s.isSyncing = false) :
    performSync env s = { s with
      table := (uploadQueue env (unsyncedRows s.table) s.table s.remote).fst
      remote := (uploadQueue env (unsyncedRows s.table) s.table s.remote).snd
      isSyncing := false } := by
  rw [performSync, if_neg (by simp [hOn, hSy])]

/-- C3: reconciliation is idempotent.  With a fixed environment (same user,
same per-recording upload outcomes) and no recordings added in between,
running `performSync` twice leaves exactly the state of the first pass: every
recording the first pass uploaded is marked synced and so is no longer in the
`getUnsyncedRecordings` queue, and every recording whose upload failed fails
again without creating a remote document, so no additional remote records
appear and the unsynced queue is unchanged. -/
theorem performSync_twice_eq_once (env : SyncEnv) (s : SyncState) :
    performSync env (performSync env s) = performSync env s := by
  by_cases hg : (!s.isOnline || s.isSyncing) = true
  · have h1 : performSync env s = s := by rw [performSync, if_pos hg]
    rw [h1, h1]
  · have hOn : s.isOnline = true := by
      cases h : s.isOnline
      · exact absurd (by simp [h]) hg
      · rfl
    have hSy : s.isSyncing = false := by
      cases h : s.isSyncing
      · rfl
      · exact absurd (by simp [h]) hg
    rw [performSync_run env s hOn hSy]
    rw [performSync_run env
      { s with
        table := (uploadQueue env (unsyncedRows s.table) s.table s.remote).fst
        remote := (uploadQueue env (unsyncedRows s.table) s.table s.remote).snd
        isSyncing := false } hOn rfl]
    dsimp only
    rw [uploadQueue_all_fail env _ _ _ (unsynced_after_pass env s.table s.remote)]

/-- C7: `performSync` proceeds only when the service is online and no pass is
in flight.  Whenever the guard fails — offline, or `isSyncing` already set —
the call returns at once with the state untouched (and, the return type being
plain state, with no error).  During a running pass the state has
`isSyncing = true`, and the second conjunct shows a reentrant call on any such
state is a no-op, so two passes are never in flight at once. -/
theorem performSync_requires_online_idle (env : SyncEnv) (s : SyncState)
    (h : s.isOnline = false ∨ s.isSyncing = true) :
    performSync env s = s ∧
    performSync env { s with isSyncing := true } = { s with isSyncing := true } := by
  constructor
  · rcases h with h | h <;> rw [performSync, if_pos (by simp [h])]
  · rw [performSync, if_pos (by simp)]

theorem performSync_requires_online_idle_witness :
    performSync envAllOk sOffline = sOffline :=
  (performSync_requires_online_idle envAllOk sOffline (Or.inl rfl)).1

/-- C8: per-item failures are isolated.  Over any queue, the remote documents
created are exactly those of the successfully uploading recordings — an
earlier failure never prevents a later recording from being processed — and a
recording whose upload fails keeps `isSynced = false` and is still in the
unsynced queue the next pass reads. -/
theorem upload_failure_isolated (env : SyncEnv) (queue tbl : List Recording)
    (remote : List RemoteRecord) :
    (uploadQueue env queue tbl remote).snd
      = remote ++ (queue.filter (fun r => env.uploadOk r.id)).map (mkRemoteRecord env) ∧
    ∀ r ∈ queue, env.uploadOk r.id = false → r ∈ tbl → r.isSynced = false →
      r ∈ unsyncedRows (uploadQueue env queue tbl remote).fst := by
  refine ⟨uploadQueue_snd_eq env queue tbl remote, ?_⟩
  intro r hq hok hmem huns
  rw [uploadQueue_fst_eq_map]
  have hmarks : marksOf env queue r = r := by
    rw [marksOf, if_neg]
    intro hany
    obtain ⟨q, hqmem, hpq⟩ := List.any_eq_true.mp hany
    simp only [Bool.and_eq_true, beq_iff_eq] at hpq
    obtain ⟨hid, hup⟩ := hpq
    rw [← hid, hok] at hup
    exact Bool.false_ne_true hup
  rw [unsyncedRows, List.mem_filter]
  exact ⟨hmarks ▸ List.mem_map_of_mem (marksOf env queue) hmem, by simp [huns]⟩

theorem upload_failure_isolated_witness :
    rSample ∈ unsyncedRows
      (uploadQueue envMixed [rSample, rOther] [rSample, rOther] []).fst :=
  (upload_failure_isolated envMixed [rSample, rOther] [rSample, rOther] []).2
    rSample (by decide) (by decide) (by decide) (by decide)

/-- C5 counterexample: under arbitrary store operations, the observable
`isSynced` of an id can go from true to false.  With a synced `r1` in the web
store, saving a recording that reuses id `r1` with `isSynced = false`
prepends a shadowing entry, and `getWebRecording "r1"` — which returns the
first match — now reports `isSynced = false` where it reported `true`
before. -/
theorem save_shadows_synced_entry :
    (getWebRecording "r1" [rSampleSynced]).map (fun r => r.isSynced) = some true ∧
    (getWebRecording "r1" (saveWebRecording "t1" rSample [rSampleSynced])).map
        (fun r => r.isSynced) = some false := by
  decide

theorem setSyncFlag_true_idem (id : String) (tbl : List Recording) :
    setSyncFlag id true (setSyncFlag id true tbl) = setSyncFlag id true tbl := by
  simp only [setSyncFlag, List.map_map]
  refine congrArg (fun g => List.map g tbl) (funext fun r => ?_)
  by_cases h : r.id = id
  · simp [Function.comp, h]
  · simp [Function.comp, h]

theorem setSyncFlag_unknown_id (id : String) (flag : Bool) (tbl : List Recording)
    (h : ∀ r ∈ tbl, r.id ≠ id) : setSyncFlag id flag tbl = tbl := by
  rw [setSyncFlag]
  conv_rhs => rw [← List.map_id tbl]
  refine List.map_congr_left fun r hr => ?_
  simp [h r hr]

theorem setSyncFlag_true_keeps_synced (id : String) (tbl : List Recording) :
    ∀ r ∈ tbl, r.isSynced = true →
      ∃ r', r' ∈ setSyncFlag id true tbl ∧ r'.id = r.id ∧ r'.isSynced = true := by
  intro r hr hs
  by_cases h : r.id = id
  · refine ⟨{ r with isSynced := true }, ?_, rfl, rfl⟩
    rw [setSyncFlag]
    have hm := List.mem_map_of_mem
      (fun x => if x.id == id then { x with isSynced := true } else x) hr
    simpa [h] using hm
  · refine ⟨r, ?_, rfl, hs⟩
    rw [setSyncFlag]
    have hm := List.mem_map_of_mem
      (fun x => if x.id == id then { x with isSynced := true } else x) hr
    simpa [h] using hm

theorem updateSync_mobile_idem (id : String) (st : DbState) :
    updateRecordingSyncStatus true true id true
        (updateRecordingSyncStatus true true id true st).snd
      = updateRecordingSyncStatus true true id true st := by
  obtain ⟨astore, db⟩ := st
  cases db with
  | none => rfl
  | some tbl => simp [updateRecordingSyncStatus, setSyncFlag_true_idem]

theorem updateSync_mobile_unknown_id (id : String) (st : DbState)
    (h : ∀ r ∈ st.sqliteDb.getD [], r.id ≠ id) :
    updateRecordingSyncStatus true true id true st = (Except.ok (), st) := by
  obtain ⟨astore, db⟩ := st
  cases db with
  | none => rfl
  | some tbl =>
    have h' : ∀ r ∈ tbl, r.id ≠ id := by simpa using h
    simp [updateRecordingSyncStatus, setSyncFlag_unknown_id id true tbl h']

theorem updateSync_mobile_keeps_synced (id : String) (st : DbState) :
    ∀ r ∈ st.sqliteDb.getD [], r.isSynced = true →
      ∃ r', r' ∈ ((updateRecordingSyncStatus true true id true st).snd).sqliteDb.getD []
        ∧ r'.id = r.id ∧ r'.isSynced = true := by
  obtain ⟨astore, db⟩ := st
  cases db with
  | none =>
    intro r hr
    simp at hr
  | some tbl =>
    intro r hr hs
    have hr' : r ∈ tbl := by simpa using hr
    obtain ⟨r', hm, hid, hsy⟩ := setSyncFlag_true_keeps_synced id tbl r hr' hs
    refine ⟨r', ?_, hid, hsy⟩
    simpa [updateRecordingSyncStatus] using hm

/-- C5 amended: `markSynced` is idempotent, a no-op on unknown ids, and never
flips an entry's `isSynced` from true to false, on both backends: the web
`updateWebRecordingSyncStatus` unconditionally, and the mobile
`updateRecordingSyncStatus` on its success path (working handle, connection
test and UPDATE succeed) — its failure paths still return normally but null
the database handle (the C10 theorem covers those).  Each conjunction pairs
the web statement with the mobile one: running the operation twice equals
running it once, an id matching no row leaves the store untouched, and every
synced row is still present synced afterwards.  The original claim's
universal monotonicity over all store operations fails only because
`saveRecording` can prepend an unsynced duplicate that shadows a synced entry
(see the counterexample). -/
theorem markSynced_idempotent_and_monotone (id : String) (store : List Recording)
    (st : DbState) :
    (markSynced id (markSynced id store) = markSynced id store ∧
      updateRecordingSyncStatus true true id true
          (updateRecordingSyncStatus true true id true st).snd
        = updateRecordingSyncStatus true true id true st) ∧
    (((∀ r ∈ store, r.id ≠ id) → markSynced id store = store) ∧
      ((∀ r ∈ st.sqliteDb.getD [], r.id ≠ id) →
        updateRecordingSyncStatus true true id true st = (Except.ok (), st))) ∧
    ((∀ r ∈ store, r.isSynced = true →
        ∃ r', r' ∈ markSynced id store ∧ r'.id = r.id ∧ r'.isSynced = true) ∧
      (∀ r ∈ st.sqliteDb.getD [], r.isSynced = true →
        ∃ r', r' ∈ ((updateRecordingSyncStatus true true id true st).snd).sqliteDb.getD []
          ∧ r'.id = r.id ∧ r'.isSynced = true)) :=
  ⟨⟨setSyncFlag_true_idem id store, updateSync_mobile_idem id st⟩,
   ⟨fun h => setSyncFlag_unknown_id id true store h, updateSync_mobile_unknown_id id st⟩,
   ⟨setSyncFlag_true_keeps_synced id store, updateSync_mobile_keeps_synced id st⟩⟩

theorem markSynced_idempotent_and_monotone_witness :
    (markSynced "zzz" [rSample] = [rSample] ∧
      updateRecordingSyncStatus true true "zzz" true dbEmpty = (Except.ok (), dbEmpty)) ∧
    markSynced "zzz" (markSynced "zzz" [rSample]) = markSynced "zzz" [rSample] :=
  ⟨⟨(markSynced_idempotent_and_monotone "zzz" [rSample] dbEmpty).2.1.1 (by decide),
    (markSynced_idempotent_and_monotone "zzz" [rSample] dbEmpty).2.1.2 (by decide)⟩,
   (markSynced_idempotent_and_monotone "zzz" [rSample] dbEmpty).1.1⟩

/-- C9: the capture state machine admits at most one active capture.
`stopRecording` in the idle state fails with the `No active recording` error
and changes nothing; `startRecording` while already recording returns
unchanged; and after any successful `startRecording` the state is `recording`,
so a second `startRecording` — with any permission or preparation outcome —
is a no-op, leaving exactly the one active capture. -/
theorem capture_single_active (pg pk pg2 pk2 a b c d : Bool) (u v : String)
    (s : AudioSvcState) :
    (s.recState = RecState.idle →
      stopRecording a b c d u v s = (Except.error "No active recording", s)) ∧
    (s.recState = RecState.recording →
      startRecording pg pk s = (Except.ok (), s)) ∧
    ((startRecording pg pk s).fst = Except.ok () →
      (startRecording pg pk s).snd.recState = RecState.recording ∧
      startRecording pg2 pk2 (startRecording pg pk s).snd
        = (Except.ok (), (startRecording pg pk s).snd)) := by
  refine ⟨?_, ?_, ?_⟩
  · intro h
    rw [stopRecording, if_pos (by simp [h])]
  · intro h
    rw [startRecording, if_pos (by simp [h])]
  · intro h
    have hrec : (startRecording pg pk s).snd.recState = RecState.recording := by
      by_cases h1 : (s.recState == RecState.recording) = true
      · rw [startRecording, if_pos h1]
        exact beq_iff_eq.mp h1
      · cases hpg : pg with
        | false =>
          rw [startRecording, if_neg h1] at h
          simp [hpg] at h
        | true =>
          cases hpk : pk with
          | false =>
            rw [startRecording, if_neg h1] at h
            simp [hpg, hpk] at h
          | true =>
            rw [startRecording, if_neg h1]
            simp [hpg, hpk]
    refine ⟨hrec, ?_⟩
    rw [startRecording, if_pos (by simp [hrec])]

theorem capture_single_active_witness :
    stopRecording true true true true "p" "o" audioIdle
      = (Except.error "No active recording", audioIdle) ∧
    startRecording true true audioActive = (Except.ok (), audioActive) :=
  ⟨(capture_single_active true true true true true true true true "p" "o"
      audioIdle).1 rfl,
   (capture_single_active true true true true true true true true "p" "o"
      audioActive).2.1 rfl⟩

/-- C10: the mobile `updateRecordingSyncStatus` never throws, for any id, any
flag and any database state: with a null SQLite handle it returns silently
with the state unchanged, and when the connection test or the UPDATE fails the
error is swallowed (the handle is nulled) and the method still returns
normally — every path yields the same `ok` result, so a caller cannot tell a
persisted update from a silent no-op. -/
theorem updateRecordingSyncStatus_never_throws (connOk updOk : Bool) (id : String)
    (flag : Bool) (st : DbState) :
    (updateRecordingSyncStatus connOk updOk id flag st).fst = Except.ok () ∧
    (st.sqliteDb = none →
      updateRecordingSyncStatus connOk updOk id flag st = (Except.ok (), st)) := by
  obtain ⟨astore, db⟩ := st
  cases db with
  | none => exact ⟨rfl, fun _ => rfl⟩
  | some tbl =>
    constructor
    · cases connOk <;> cases updOk <;> rfl
    · intro hnone
      simp at hnone

theorem updateRecordingSyncStatus_never_throws_witness :
    updateRecordingSyncStatus true true "r1" true { asyncStore := [], sqliteDb := none }
      = (Except.ok (), { asyncStore := [], sqliteDb := none }) :=
  (updateRecordingSyncStatus_never_throws true true "r1" true
      { asyncStore := [], sqliteDb := none }).2 rfl

/-- C6 counterexample: `SongService.downloadSong` never verifies the written
file.  Against a transfer that answers HTTP 200 but leaves a missing,
zero-byte file, `downloadSong "s1"` returns `true` and marks the catalog
entry `isDownloaded = true` — the claim says it must return `false` and leave
`isDownloaded = false`. -/
theorem downloadSong_accepts_empty_file :
    (downloadSong "t1" emptyDl "s1" [songRowS1]).fst = true ∧
    (getSong "s1" (downloadSong "t1" emptyDl "s1" [songRowS1]).snd).map
        (fun s => s.isDownloaded) = some true := by
  decide

/-- C6 amended: the non-empty-file verification lives in
`downloadFirebaseSong`, not `downloadSong`.  `downloadFirebaseSong` returns
`false` and leaves the downloaded-songs store untouched whenever the
transferred file is missing or zero bytes, and it returns `true` only when the
transfer answered HTTP 200 and the written file exists with non-zero size (in
which case the entry is saved with `isDownloaded = true`). -/
theorem downloadFirebaseSong_verifies_nonempty (fbSong : Option FirebaseSong)
    (urlOk : Bool) (dl : DownloadOutcome) (store : List DownloadedSong) :
    (dl.filePresent = false ∨ dl.fileSize = 0 →
      downloadFirebaseSong fbSong urlOk dl store = (false, store)) ∧
    ((downloadFirebaseSong fbSong urlOk dl store).fst = true →
      dl.filePresent = true ∧ dl.fileSize ≠ 0 ∧ dl.status = 200) := by
  cases fbSong with
  | none =>
    refine ⟨fun _ => rfl, fun h => ?_⟩
    simp [downloadFirebaseSong] at h
  | some song =>
    constructor
    · intro hempty
      rw [downloadFirebaseSong]
      cases hu : urlOk with
      | false => simp
      | true =>
        cases hst : dl.status == 200 with
        | false => simp [hst]
        | true =>
          have hcond : (!dl.filePresent || dl.fileSize == 0) = true := by
            rcases hempty with h | h <;> simp [h]
          simp [hst, hcond]
    · intro h
      rw [downloadFirebaseSong] at h
      cases hu : urlOk with
      | false => simp [hu] at h
      | true =>
        cases hst : dl.status == 200 with
        | false => simp [hu, hst] at h
        | true =>
          cases hfp : dl.filePresent with
          | false => simp [hu, hst, hfp] at h
          | true =>
            cases hsz : dl.fileSize == 0 with
            | true => simp [hu, hst, hfp, hsz] at h
            | false =>
              refine ⟨rfl, ?_, beq_iff_eq.mp hst⟩
              intro hc
              rw [hc] at hsz
              simp at hsz

theorem downloadFirebaseSong_verifies_nonempty_witness :
    downloadFirebaseSong (some fbS1) true emptyDl [] = (false, []) :=
  (downloadFirebaseSong_verifies_nonempty (some fbS1) true emptyDl []).1 (Or.inl rfl)

end KarokiMate
